import Mathlib

/-!
Verification development for the Zeitgeist content pipeline.

Shallow embedding of the core components of the repository:
the content deduplication engine (src/aggregator/dedup_engine.py),
the async article fetcher (src/aggregator/article_fetcher.py) and
the blog scheduler (src/scheduler/schedule.py).

Modelling conventions:
- Python `str` is Lean `String`; character-level operations work on `String.data`.
- Cryptographic digests (hashlib.sha256 / hashlib.md5) are abstracted as
  injective encodings (the identity on the hashed text); the engine only
  uses digests as exact-match keys, and the model preserves exactly that.
- difflib.SequenceMatcher(...).ratio() is an external library call; it is
  abstracted as a function parameter `seqRatio`, and all theorems are
  universally quantified over it.
- Python floats are modelled as exact rationals.
- Concurrency is modelled by making completion order, task completion
  status, and shutdown-flag reads explicit parameters of the functions.
-/

/-! ## String utilities (Python semantics) -/

/-- Whitespace characters recognised by Python's `str.split()` and the
regex class `\s` on ASCII text. -/
def pySpace (c : Char) : Bool :=
  c = ' ' ∨ c = '\t' ∨ c = '\n' ∨ c = '\r' ∨ c = '\x0b' ∨ c = '\x0c'

/-- Word characters: the regex class `\w` on ASCII text. -/
def pyWordChar (c : Char) : Bool :=
  c.isAlpha ∨ c.isDigit ∨ c = '_'

/-- Python `str.lower()` on ASCII text. -/
def pyLower (s : String) : String :=
  String.mk (s.data.map Char.toLower)

/-- Splitting a character list on whitespace runs, Python `str.split()`:
maximal non-whitespace runs, empties dropped.  The recursion is made
structural on a fuel argument; every step consumes at least one character,
so fuel equal to the list length is always sufficient. -/
def pySplitCharsF : Nat → List Char → List (List Char)
  | 0, _ => []
  | _ + 1, [] => []
  | fuel + 1, c :: rest =>
    if pySpace c then pySplitCharsF fuel rest
    else (c :: rest.takeWhile (fun d => ¬ pySpace d)) ::
      pySplitCharsF fuel (rest.dropWhile (fun d => ¬ pySpace d))

/-- Splitting a character list on whitespace runs. -/
def pySplitChars (cs : List Char) : List (List Char) :=
  pySplitCharsF cs.length cs

/-- Python `str.split()` with no argument. -/
def pySplit (s : String) : List String :=
  (pySplitChars s.data).map String.mk

/-- Number of whitespace-separated words, Python `len(s.split())`. -/
def pyWordCount (s : String) : Nat :=
  (pySplit s).length

/-- Collapsing each maximal whitespace run to a single space,
Python `re.sub(r'\s+', ' ', text)`; fuel-indexed structural recursion,
with fuel equal to the list length always sufficient. -/
def collapseWsF : Nat → List Char → List Char
  | 0, _ => []
  | _ + 1, [] => []
  | fuel + 1, c :: rest =>
    if pySpace c then ' ' :: collapseWsF fuel (rest.dropWhile pySpace)
    else c :: collapseWsF fuel rest

/-- Collapsing each maximal whitespace run to a single space. -/
def collapseWs (cs : List Char) : List Char :=
  collapseWsF cs.length cs

/-- Lexicographic comparison of character lists by code point, the order
Python `sorted` uses on strings. -/
def lexLe : List Char → List Char → Bool
  | [], _ => true
  | _ :: _, [] => false
  | a :: as, b :: bs =>
    if a.toNat < b.toNat then true
    else if b.toNat < a.toNat then false
    else lexLe as bs

/-- Python `' '.join(ws)` style joining with a single separator character. -/
def joinWith (sep : Char) (ws : List String) : String :=
  String.mk (List.intercalate [sep] (ws.map String.data))

/-! ## Deduplication engine (src/aggregator/dedup_engine.py) -/

/-- STOP_WORDS from dedup_engine.py. -/
def STOP_WORDS : List String :=
  ["the", "a", "an", "and", "or", "but", "in", "on", "at", "to", "for", "of",
   "with", "by", "from", "up", "about", "into", "through", "during", "before",
   "after", "above", "below", "under", "between", "among", "amongst",
   "throughout", "within", "without", "toward", "towards", "until", "unless",
   "since", "while", "because", "although", "though", "if", "whether", "when",
   "where", "who", "whom", "whose", "which", "what", "how", "why", "this",
   "that", "these", "those", "i", "you", "he", "she", "it", "we", "they", "me",
   "him", "her", "us", "them", "my", "your", "his", "its", "our",
   "their", "mine", "yours", "hers", "ours", "theirs"]

/-- Modelled digest: hashlib.sha256(text).hexdigest(), abstracted as an
injective encoding of the hashed text (collision-free exact-match key). -/
def sha256 (s : String) : String := s

/-- Modelled digest: hashlib.md5(text).hexdigest(), abstracted as an
injective encoding of the hashed text. -/
def md5 (s : String) : String := s

/-- ContentDeduplicator._normalize_text: lowercase, collapse whitespace,
drop punctuation, keep words longer than two characters not in STOP_WORDS. -/
def normalize_text (text : String) : String :=
  let lowered := text.data.map Char.toLower
  let collapsed := collapseWs lowered
  let depunct := collapsed.filter (fun c => pyWordChar c ∨ pySpace c)
  let words := (pySplitChars depunct).map String.mk
  let kept := words.filter (fun w => ¬ w ∈ STOP_WORDS ∧ 2 < w.length)
  joinWith ' ' kept

/-- ContentDeduplicator._create_similarity_hash: md5 over the sorted,
deduplicated 3-word shingles of the normalized text, joined by bars. -/
def create_similarity_hash (text : String) : String :=
  let words := pySplit (normalize_text text)
  let shingles := (List.range (words.length - 2)).map
    (fun i => joinWith ' ' ((words.drop i).take 3))
  let sortedShingles :=
    List.insertionSort (fun a b : String => lexLe a.data b.data = true) shingles.dedup
  md5 (joinWith '|' sortedShingles)

/-- Removal of the markdown characters `# * [ ] ( )`,
Python `re.sub(r'[#*\[\]()]', '', content)`. -/
def stripMdChars (cs : List Char) : List Char :=
  cs.filter (fun c =>
    ¬ (c = '#' ∨ c = '*' ∨ c = '[' ∨ c = ']' ∨ c = '(' ∨ c = ')'))

/-- Markdown-character removal on strings. -/
def stripMd (s : String) : String := String.mk (stripMdChars s.data)

/-- Recogniser for `http://` or `https://` at the head of a character list,
returning the remainder; the optional `s` is matched greedily as in the
regex `http[s]?://`. -/
def httpHead (cs : List Char) : Option (List Char) :=
  if cs.take 8 = ['h', 't', 't', 'p', 's', ':', '/', '/'] then some (cs.drop 8)
  else if cs.take 7 = ['h', 't', 't', 'p', ':', '/', '/'] then some (cs.drop 7)
  else none

/-- A URL match at the head of a character list: the scheme recognised by
`httpHead` followed by at least one non-whitespace character (`\S+`,
matched greedily). Returns the remainder after the whole match. -/
def urlMatchHead (cs : List Char) : Option (List Char) :=
  match httpHead cs with
  | none => none
  | some t =>
    if (t.takeWhile (fun c => ¬ pySpace c)).isEmpty then none
    else some (t.dropWhile (fun c => ¬ pySpace c))

/-- URL removal, Python `re.sub(r'http[s]?://\S+', '', text)`: scan left to
right, delete every leftmost-greedy match of the pattern; fuel-indexed
structural recursion, with fuel equal to the list length always
sufficient (a match consumes at least eight characters). -/
def stripUrlsCharsF : Nat → List Char → List Char
  | 0, _ => []
  | _ + 1, [] => []
  | fuel + 1, c :: rest =>
    match urlMatchHead (c :: rest) with
    | some t => stripUrlsCharsF fuel t
    | none => c :: stripUrlsCharsF fuel rest

/-- URL removal on character lists. -/
def stripUrlsChars (cs : List Char) : List Char :=
  stripUrlsCharsF cs.length cs

/-- URL removal on strings. -/
def stripUrls (s : String) : String := String.mk (stripUrlsChars s.data)

/-- The content cleaning performed by _create_content_fingerprint: remove
markdown characters, then remove http(s) URLs. -/
def clean_for_fingerprint (content : String) : String :=
  stripUrls (stripMd content)

/-- ContentFingerprint dataclass from dedup_engine.py; `timestamp` is an
abstract clock value. -/
structure ContentFingerprint where
  content_hash : String
  title_hash : String
  similarity_hash : String
  word_count : Nat
  timestamp : Int
  title : String
  url : String
deriving DecidableEq, Repr

/-- ContentDeduplicator._create_content_fingerprint. -/
def create_content_fingerprint (title content url : String) (now : Int) :
    ContentFingerprint :=
  let clean := clean_for_fingerprint content
  { content_hash := sha256 clean
    title_hash := sha256 (pyLower title)
    similarity_hash := create_similarity_hash clean
    word_count := (pySplit clean).length
    timestamp := now
    title := title
    url := url }

/-- Mutable state of a ContentDeduplicator: the fingerprint dict (values in
insertion order, keyed by content hash) and the two lookup sets. -/
structure DedupState where
  similarity_threshold : ℚ
  fingerprints : List ContentFingerprint
  title_cache : List String
  content_cache : List String

/-- A freshly constructed ContentDeduplicator with an empty store. -/
def DedupState.init (threshold : ℚ) : DedupState :=
  ⟨threshold, [], [], []⟩

/-- Python set.add. -/
def setAdd (s : List String) (x : String) : List String :=
  if x ∈ s then s else s ++ [x]

/-- Python dict assignment `d[fp.content_hash] = fp`: replace in place if
the key is present, append otherwise. -/
def dictInsert (fps : List ContentFingerprint) (fp : ContentFingerprint) :
    List ContentFingerprint :=
  if fps.any (fun e => e.content_hash = fp.content_hash) then
    fps.map (fun e => if e.content_hash = fp.content_hash then fp else e)
  else fps ++ [fp]

/-- ContentDeduplicator._add_to_cache. -/
def add_to_cache (st : DedupState) (fp : ContentFingerprint) : DedupState :=
  { st with
    fingerprints := dictInsert st.fingerprints fp
    title_cache := setAdd st.title_cache fp.title_hash
    content_cache := setAdd st.content_cache fp.content_hash }

/-- ContentDeduplicator.is_duplicate_title. -/
def is_duplicate_title (st : DedupState) (title : String) : Bool :=
  sha256 (pyLower title) ∈ st.title_cache

/-- ContentDeduplicator.is_duplicate_content: hashes the content with only
markdown characters removed (no URL removal). -/
def is_duplicate_content (st : DedupState) (content : String) : Bool :=
  sha256 (stripMd content) ∈ st.content_cache

/-- Word-count difference, Python
`abs(existing_fp.word_count - new_fp.word_count)` on ints. -/
def word_count_diff (a b : Nat) : Nat := ((a : ℤ) - (b : ℤ)).natAbs

/-- Content-length similarity metric of _calculate_similarity:
`1.0 - word_count_diff / max_word_count` when the maximum is positive,
`0.0` otherwise. -/
def length_similarity (existingWc newWc : Nat) : ℚ :=
  if 0 < max existingWc newWc then
    1 - (word_count_diff existingWc newWc : ℚ) / ((max existingWc newWc : Nat) : ℚ)
  else 0

/-- ContentDeduplicator._calculate_similarity: weighted sum of the
similarity-hash match, the title sequence ratio, and the length similarity,
with weights 0.5 / 0.3 / 0.2.  `seqRatio` abstracts
difflib.SequenceMatcher(None, a, b).ratio(). -/
def calculate_similarity (seqRatio : String → String → ℚ)
    (new_fp existing_fp : ContentFingerprint) (title : String) : ℚ :=
  (if new_fp.similarity_hash = existing_fp.similarity_hash then (1 : ℚ) else 0) * (1 / 2)
    + seqRatio (pyLower title) (pyLower existing_fp.title) * (3 / 10)
    + length_similarity existing_fp.word_count new_fp.word_count * (1 / 5)

/-- ContentDeduplicator.find_similar_content: score every stored
fingerprint, skip exact content-hash matches, keep scores at or above the
threshold, sort descending by score (stable). -/
def find_similar_content (seqRatio : String → String → ℚ) (st : DedupState)
    (title content : String) (now : Int) : List (ContentFingerprint × ℚ) :=
  let fp := create_content_fingerprint title content "" now
  let candidates := st.fingerprints.filterMap (fun ex =>
    if ex.content_hash = fp.content_hash then none
    else if st.similarity_threshold ≤ calculate_similarity seqRatio fp ex title then
      some (ex, calculate_similarity seqRatio fp ex title)
    else none)
  List.insertionSort (fun a b => b.2 ≤ a.2) candidates

/-- ContentDeduplicator.add_content: reject on exact content hash, on
duplicate title hash, or on any similar stored content; otherwise add the
fingerprint to the caches (and persist) and report success. -/
def add_content (seqRatio : String → String → ℚ) (st : DedupState)
    (title content url : String) (now : Int) : Bool × DedupState :=
  let fp := create_content_fingerprint title content url now
  if sha256 (clean_for_fingerprint content) ∈ st.content_cache then (false, st)
  else if sha256 (pyLower title) ∈ st.title_cache then (false, st)
  else if (find_similar_content seqRatio st title content now).isEmpty then
    (true, add_to_cache st fp)
  else (false, st)

/-- ContentDeduplicator.check_content_before_generation: build a pseudo
document from the title and the first three sources (truncated to 1000
characters) and pass iff find_similar_content finds nothing. -/
def check_content_before_generation (seqRatio : String → String → ℚ)
    (st : DedupState) (title : String) (sources : List String) (now : Int) : Bool :=
  let combined := joinWith ' ' (sources.take 3)
  let pseudo := title ++ "\n\n" ++ String.mk (combined.data.take 1000)
  (find_similar_content seqRatio st title pseudo now).isEmpty

/-! ## Async article fetcher (src/aggregator/article_fetcher.py) -/

/-- Substring test used to recognise Google News redirect links,
Python `'news.google.com/rss/articles/' in url`. -/
def charsHeadEq : List Char → List Char → Bool
  | [], _ => true
  | _ :: _, [] => false
  | p :: ps, h :: hs => p = h && charsHeadEq ps hs

/-- Contiguous-substring test on character lists. -/
def charsContain (hay pat : List Char) : Bool :=
  match hay with
  | [] => pat.isEmpty
  | _ :: rest => charsHeadEq pat hay || charsContain rest pat

/-- Whether a URL is a Google News redirect link, the condition in
AsyncArticleFetcher._resolve_google_news_url. -/
def is_google_news_redirect (url : String) : Bool :=
  charsContain url.data "news.google.com/rss/articles/".data

/-- Network-location component of a URL, modelled from
urllib.parse.urlparse(url).netloc for scheme://host URLs: the characters
after the first `://` up to the next `/`, `?` or `#` (empty when the URL
has no `://`). -/
def netlocChars : List Char → List Char
  | [] => []
  | ':' :: '/' :: '/' :: rest =>
    rest.takeWhile (fun c => ¬ (c = '/' ∨ c = '?' ∨ c = '#'))
  | _ :: rest => netlocChars rest

/-- Network-location component of a URL string. -/
def netloc (url : String) : String := String.mk (netlocChars url.data)

/-- AsyncArticleFetcher._generate_fallback_content: deterministic
placeholder text derived from the URL's domain. -/
def generate_fallback_content (url : String) : String :=
  "Content from " ++ netloc url ++ " could not be extracted. Source: " ++ url

/-- Outcome of one extraction attempt inside extract_single_article's retry
loop: either _extract_with_aiohttp returns a (title, content) pair, or it
raises an exception (caught by the loop). -/
inductive AttemptOutcome where
  | ret (title content : String)
  | exn (msg : String)
deriving DecidableEq, Repr

/-- Retry loop of AsyncArticleFetcher.extract_single_article, one list
entry per attempt (`range(max_retries)`).  Content is accepted only when
it is non-empty and longer than 100 characters; a short result or an
exception falls through to the next attempt after a `2 ** attempt` second
backoff sleep (no sleep after the last attempt).  Returns the accepted
(title, content) pair, if any, together with the list of backoff sleeps
performed. -/
def fetch_attempts : List AttemptOutcome → Nat → Option (String × String) × List Nat
  | [], _ => (none, [])
  | oc :: rest, attempt =>
    let backoff : List Nat := if rest.isEmpty then [] else [2 ^ attempt]
    match oc with
    | .ret t c =>
      if 100 < c.length then (some (t, c), [])
      else
        let r := fetch_attempts rest (attempt + 1)
        (r.1, backoff ++ r.2)
    | .exn _ =>
      let r := fetch_attempts rest (attempt + 1)
      (r.1, backoff ++ r.2)

/-- AsyncArticleFetcher.extract_single_article: an already-closed fetcher
reports an error with empty content; otherwise the retry loop runs and,
when every attempt fails, the fallback placeholder derived from the
original URL is returned.  The function never raises. -/
def extract_single_article (is_closed : Bool) (url : String)
    (outcomes : List AttemptOutcome) : (String × String) × List Nat :=
  if is_closed then (("Error: Fetcher closed", ""), [])
  else
    let r := fetch_attempts outcomes 0
    match r.1 with
    | some tc => (tc, r.2)
    | none => (("Error: Extraction failed", generate_fallback_content url), r.2)

/-- Outcome of one per-URL task of a batch, as seen by asyncio.gather with
return_exceptions=True: either the (title, content) the task returned, or
the exception it ended with. -/
inductive TaskOutcome where
  | ok (title content : String)
  | exn (msg : String)
deriving DecidableEq, Repr

/-- AsyncArticleFetcher._process_results: pair the i-th input URL with the
i-th gathered result, converting exceptions to an error marker with empty
content. -/
def process_results (urls : List String) (results : List TaskOutcome) :
    List (String × String × String) :=
  List.zipWith (fun u r =>
    match r with
    | TaskOutcome.ok t c => (u, t, c)
    | TaskOutcome.exn _ => (u, "Error: Task failed", "")) urls results

/-- Result list the gather-with-timeout step hands to _process_results:
without a batch timeout it is the per-task outcomes in task order; on
`asyncio.TimeoutError` the code replaces it by `Exception("Timeout")` for
every task of the batch. -/
def gather_results (timedOut : Bool) (outcomes : List TaskOutcome) :
    List TaskOutcome :=
  if timedOut then outcomes.map (fun _ => TaskOutcome.exn "Timeout")
  else outcomes

/-- Indices of the tasks cancelled on batch timeout: the code iterates the
batch's tasks and cancels exactly those not yet done. -/
def cancelled_tasks (timedOut : Bool) (done : List Bool) : List Nat :=
  if timedOut then
    done.enum.filterMap (fun p => if p.2 = false then some p.1 else none)
  else []

/-- Result of a batch fetch: the processed per-URL results and the indices
of the tasks cancelled at the batch timeout. -/
structure BatchResult where
  out : List (String × String × String)
  cancelled : List Nat
deriving DecidableEq, Repr

/-- AsyncArticleFetcher.extract_multiple_articles: a closed fetcher aborts
with an empty list; otherwise one task per URL is gathered under the
300-second batch timeout.  `outcomes` gives each task's result were it to
complete, `done` whether it had completed when the timeout fired, and
`timedOut` whether the batch timeout fired. -/
def extract_multiple_articles (is_closed : Bool) (urls : List String)
    (outcomes : List TaskOutcome) (done : List Bool) (timedOut : Bool) :
    BatchResult :=
  if is_closed then ⟨[], []⟩
  else ⟨process_results urls (gather_results timedOut outcomes),
        cancelled_tasks timedOut done⟩

/-! ## Session manager and fetcher lifecycle (article_fetcher.py) -/

/-- Teardown work observable during close/cleanup. -/
inductive TeardownAct where
  | closeSession
  | cancelTask (id : Nat)
deriving DecidableEq, Repr

/-- State of an aiohttp.ClientSession as the manager sees it. -/
structure SessionState where
  closed : Bool
deriving DecidableEq, Repr

/-- Mutable state of AsyncSessionManager. -/
structure AsyncSessionManager where
  session : Option SessionState
  connector : Option Unit
  is_closed : Bool
deriving DecidableEq, Repr

/-- AsyncSessionManager.close: under the cleanup lock, return at once when
already closed; otherwise close a live session (errors swallowed) and in
all cases clear the references and mark the manager closed. -/
def AsyncSessionManager.close (m : AsyncSessionManager) :
    AsyncSessionManager × List TeardownAct :=
  if m.is_closed then (m, [])
  else
    let acts :=
      match m.session with
      | some s => if s.closed then [] else [TeardownAct.closeSession]
      | none => []
    (⟨none, none, true⟩, acts)

/-- One live task tracked in the fetcher's active-task set. -/
structure FetcherTask where
  id : Nat
  done : Bool
deriving DecidableEq, Repr

/-- Mutable state of AsyncArticleFetcher relevant to cleanup. -/
structure FetcherState where
  active_tasks : List FetcherTask
  is_closed : Bool
  session_manager : AsyncSessionManager
deriving DecidableEq, Repr

/-- AsyncArticleFetcher.cleanup: return at once when already closed;
otherwise mark closed, cancel the not-yet-done active tasks, await them,
clear the task set, and close the session manager. -/
def FetcherState.cleanup (f : FetcherState) :
    FetcherState × List TeardownAct :=
  if f.is_closed then (f, [])
  else
    let cancels := f.active_tasks.filterMap
      (fun t => if t.done then none else some (TeardownAct.cancelTask t.id))
    let r := f.session_manager.close
    (⟨[], true, r.1⟩, cancels ++ r.2)

/-! ## Blog scheduler (src/scheduler/schedule.py) -/

/-- Run statistics, the `self.stats` dict of BlogScheduler (the fields the
claims touch); an error record is the (topic, message) pair appended by
_process_topic's handler. -/
structure RunStats where
  total_runs : Nat
  successful_posts : Nat
  failed_posts : Nat
  errors : List (String × String)
deriving DecidableEq, Repr

/-- Behaviour of one call of BlogScheduler._process_topic, determined by
its collaborators: a skip (failed pre-check, no articles, no valid
content), a generation failure, a successful publish, or an exception
raised inside the per-topic pipeline. -/
inductive TopicOutcome where
  | skipped
  | genFailed
  | published
  | raised (msg : String)
deriving DecidableEq, Repr

/-- BlogScheduler._process_topic: every exception raised inside the
per-topic pipeline is caught, appended to the error list together with the
topic, and counted as a failed post; the call reports success only for a
published topic and never lets an exception escape. -/
def process_topic (stats : RunStats) (topic : String) (oc : TopicOutcome) :
    Bool × RunStats :=
  match oc with
  | TopicOutcome.skipped => (false, stats)
  | TopicOutcome.genFailed =>
    (false, { stats with failed_posts := stats.failed_posts + 1 })
  | TopicOutcome.published => (true, stats)
  | TopicOutcome.raised msg =>
    (false, { stats with
      errors := stats.errors ++ [(topic, msg)]
      failed_posts := stats.failed_posts + 1 })

/-- Behaviour of one iteration of the topic loop: either _process_topic
runs (and itself catches everything), or the loop machinery around it
raises an exception that propagates to the run boundary. -/
inductive IterBehavior where
  | runs (oc : TopicOutcome)
  | fatal (msg : String)
deriving DecidableEq, Repr

/-- Observable events of the topic loop: a read of the shutdown flag with
the value read, the start and finish of the i-th topic, and the inter-topic
rate-limiting sleep. -/
inductive Ev where
  | checked (b : Bool)
  | started (i : Nat)
  | finished (i : Nat)
  | slept
deriving DecidableEq, Repr

/-- Result of the topic loop: the statistics, the event trace, and the
exception that escaped the loop, if any. -/
structure LoopResult where
  stats : RunStats
  trace : List Ev
  fault : Option String
deriving DecidableEq, Repr

/-- The topic loop of BlogScheduler.blog_generation_task.  `flags k` is the
value of `self._shutdown_requested` at its k-th read (the flag is written
concurrently by shutdown()); `k` counts reads so far and `i` numbers the
topics.  Each iteration first reads the flag and breaks when it is set;
otherwise the topic is processed to completion; after a successful publish
the flag is read again and, when it is clear, the 30-second rate-limit
sleep runs. -/
def topic_loop (flags : Nat → Bool) :
    Nat → Nat → RunStats → List (String × IterBehavior) → LoopResult
  | _, _, stats, [] => ⟨stats, [], none⟩
  | k, i, stats, (topic, beh) :: rest =>
    if flags k then ⟨stats, [Ev.checked true], none⟩
    else
      match beh with
      | IterBehavior.fatal msg => ⟨stats, [Ev.checked false], some msg⟩
      | IterBehavior.runs oc =>
        let r := process_topic stats topic oc
        if r.1 then
          let stats2 := { r.2 with successful_posts := r.2.successful_posts + 1 }
          let tail := topic_loop flags (k + 2) (i + 1) stats2 rest
          ⟨tail.stats,
           Ev.checked false :: Ev.started i :: Ev.finished i ::
             Ev.checked (flags (k + 1)) ::
             (if flags (k + 1) then [] else [Ev.slept]) ++ tail.trace,
           tail.fault⟩
        else
          let tail := topic_loop flags (k + 1) (i + 1) r.2 rest
          ⟨tail.stats,
           Ev.checked false :: Ev.started i :: Ev.finished i :: tail.trace,
           tail.fault⟩

/-- BlogScheduler._cleanup_history: trim the error list to its last 50
entries once it exceeds 100. -/
def cleanup_history (stats : RunStats) : RunStats :=
  if 100 < stats.errors.length then
    { stats with errors := stats.errors.drop (stats.errors.length - 50) }
  else stats

/-- Result of one blog_generation_task invocation: final statistics,
the loop's event trace, and whether the mandatory _post_run_cleanup in the
`finally` block ran. -/
structure TaskRunResult where
  stats : RunStats
  trace : List Ev
  cleanupRan : Bool
deriving DecidableEq, Repr

/-- BlogScheduler.blog_generation_task: an early return when shutdown was
already requested at entry (before the try block, so without cleanup);
otherwise the run counter is bumped, the topic loop runs, an exception
escaping the loop is caught and logged at the run boundary (skipping the
history trim), and the `finally` cleanup always runs. -/
def blog_generation_task (flags : Nat → Bool) (stats : RunStats)
    (topics : List (String × IterBehavior)) : TaskRunResult :=
  if flags 0 then ⟨stats, [], false⟩
  else
    let stats0 := { stats with total_runs := stats.total_runs + 1 }
    let r := topic_loop flags 1 0 stats0 topics
    match r.fault with
    | none => ⟨cleanup_history r.stats, r.trace, true⟩
    | some _ => ⟨r.stats, r.trace, true⟩

/-- Whether an event trace only starts a topic or sleeps immediately after
reading the shutdown flag as clear. -/
def checkedClear : Option Ev → Bool
  | some (Ev.checked false) => true
  | _ => false

/-- Scanner for the guard discipline: every `started` and every `slept`
event is immediately preceded by a flag read that returned false. -/
def guardedFrom (prev : Option Ev) : List Ev → Bool
  | [] => true
  | e :: rest =>
    (match e with
     | Ev.started _ => checkedClear prev
     | Ev.slept => checkedClear prev
     | _ => true) && guardedFrom (some e) rest

/-! ## Spec-side definitions for refinement comparison -/

/-- Length similarity as the spec words it for claim C4:
`1 - |word-count difference| / max(word counts)`. -/
def spec_length_similarity (w1 w2 : Nat) : ℚ :=
  1 - ((max w1 w2 - min w1 w2 : Nat) : ℚ) / ((max w1 w2 : Nat) : ℚ)

/-- Pairwise score as the spec words it for claim C4:
`0.5 * (1 if the similarity hashes are equal else 0)
 + 0.3 * title-sequence-similarity + 0.2 * lengthSimilarity`. -/
def claimed_similarity_score (seqRatio : String → String → ℚ)
    (new_fp existing_fp : ContentFingerprint) (title : String) : ℚ :=
  (1 / 2) * (if new_fp.similarity_hash = existing_fp.similarity_hash then (1 : ℚ) else 0)
    + (3 / 10) * seqRatio (pyLower title) (pyLower existing_fp.title)
    + (1 / 5) * spec_length_similarity existing_fp.word_count new_fp.word_count

/-! ## Helper lemmas -/

theorem mem_setAdd_self (s : List String) (x : String) : x ∈ setAdd s x := by
  unfold setAdd
  split
  · assumption
  · simp

/-! ## Claim C5: close and cleanup are idempotent -/

/-- C5: calling AsyncSessionManager.close or AsyncArticleFetcher.cleanup a
second time after a completed first call performs no further teardown work
and leaves the state identical to the state after the single first call
(and, the model being a total function, raises no error). -/
theorem C5_close_cleanup_idempotent (m : AsyncSessionManager) (f : FetcherState) :
    AsyncSessionManager.close (AsyncSessionManager.close m).1 =
      ((AsyncSessionManager.close m).1, []) ∧
    FetcherState.cleanup (FetcherState.cleanup f).1 =
      ((FetcherState.cleanup f).1, []) := by
  constructor
  · by_cases h : m.is_closed
    · simp [AsyncSessionManager.close, h]
    · simp [AsyncSessionManager.close, h]
  · by_cases h : f.is_closed
    · simp [FetcherState.cleanup, h]
    · simp [FetcherState.cleanup, h]

/-! ## Claim C3: accept called twice with identical arguments -/

/-- C3: from any store state in which a first ContentDeduplicator.add_content
call with (title, content, url) returns true (the fingerprint is persisted
into the caches), a second call with identical arguments returns false
(exact duplicate detected) and leaves the store unchanged. -/
theorem C3_accept_twice (seqRatio : String → String → ℚ) (st : DedupState)
    (title content url : String) (n1 n2 : Int)
    (h : (add_content seqRatio st title content url n1).1 = true) :
    add_content seqRatio (add_content seqRatio st title content url n1).2
      title content url n2 =
      (false, (add_content seqRatio st title content url n1).2) := by
  rcases heq : add_content seqRatio st title content url n1 with ⟨b, st1⟩
  rw [heq] at h
  simp only at h
  subst h
  have hst1 : st1 = add_to_cache st (create_content_fingerprint title content url n1) := by
    unfold add_content at heq
    split at heq
    · simp at heq
    · split at heq
      · simp at heq
      · split at heq
        · simp only [Prod.mk.injEq] at heq
          exact heq.2.symm
        · simp at heq
  have hmem : sha256 (clean_for_fingerprint content) ∈ st1.content_cache := by
    rw [hst1]
    show sha256 (clean_for_fingerprint content) ∈
      setAdd st.content_cache (create_content_fingerprint title content url n1).content_hash
    have hch : (create_content_fingerprint title content url n1).content_hash =
        sha256 (clean_for_fingerprint content) := rfl
    rw [hch]
    exact mem_setAdd_self _ _
  unfold add_content
  rw [if_pos hmem]

/-- Witness for C3 at a concrete store and content. -/
theorem C3_accept_twice_witness :
    (add_content (fun _ _ => 0) (DedupState.init (4 / 5)) "Quantum Leap"
        "plain text only body" "" 0).1 = true ∧
    add_content (fun _ _ => 0)
        (add_content (fun _ _ => 0) (DedupState.init (4 / 5)) "Quantum Leap"
          "plain text only body" "" 0).2
        "Quantum Leap" "plain text only body" "" 1 =
      (false,
        (add_content (fun _ _ => 0) (DedupState.init (4 / 5)) "Quantum Leap"
          "plain text only body" "" 0).2) :=
  ⟨by decide, C3_accept_twice (fun _ _ => 0) (DedupState.init (4 / 5))
    "Quantum Leap" "plain text only body" "" 0 1 (by decide)⟩

/-! ## Claim C10: is_duplicate_content is not a faithful inverse of add_content -/

/-- C10: add_content stores the hash of the content with markdown characters
and http(s) URLs stripped, while is_duplicate_content hashes the content
with only markdown characters stripped; hence, immediately after a
successful add_content on a fresh store, is_duplicate_content returns
false whenever URL stripping changed the markdown-stripped content (the
content contains an http(s) URL) and true whenever it did not. -/
theorem C10_dedup_query_mismatch (seqRatio : String → String → ℚ)
    (title content url : String) (n : Int) :
    (add_content seqRatio (DedupState.init (4 / 5)) title content url n).1 = true ∧
    (stripUrls (stripMd content) ≠ stripMd content →
      is_duplicate_content
        (add_content seqRatio (DedupState.init (4 / 5)) title content url n).2
        content = false) ∧
    (stripUrls (stripMd content) = stripMd content →
      is_duplicate_content
        (add_content seqRatio (DedupState.init (4 / 5)) title content url n).2
        content = true) := by
  have hrun : add_content seqRatio (DedupState.init (4 / 5)) title content url n =
      (true, add_to_cache (DedupState.init (4 / 5))
        (create_content_fingerprint title content url n)) := by
    unfold add_content DedupState.init find_similar_content
    simp
  refine ⟨by rw [hrun], ?_, ?_⟩
  · intro hne
    rw [hrun]
    have hform : is_duplicate_content
        (add_to_cache (DedupState.init (4 / 5))
          (create_content_fingerprint title content url n)) content =
        decide (sha256 (stripMd content) ∈ [sha256 (clean_for_fingerprint content)]) := rfl
    rw [hform]
    simp only [List.mem_singleton, decide_eq_false_iff_not]
    intro hcontra
    exact hne (by simpa [sha256, clean_for_fingerprint] using hcontra.symm)
  · intro heqc
    rw [hrun]
    have hform : is_duplicate_content
        (add_to_cache (DedupState.init (4 / 5))
          (create_content_fingerprint title content url n)) content =
        decide (sha256 (stripMd content) ∈ [sha256 (clean_for_fingerprint content)]) := rfl
    rw [hform]
    simp only [List.mem_singleton, decide_eq_true_eq]
    simpa [sha256, clean_for_fingerprint] using heqc.symm

/-- Witness for C10: content with a URL is not found again, URL-free
content is. -/
theorem C10_dedup_query_mismatch_witness :
    is_duplicate_content
      (add_content (fun _ _ => 0) (DedupState.init (4 / 5)) "T"
        "see https://example.com/x now" "" 0).2
      "see https://example.com/x now" = false ∧
    is_duplicate_content
      (add_content (fun _ _ => 0) (DedupState.init (4 / 5)) "T2"
        "with no links here" "" 0).2
      "with no links here" = true :=
  ⟨(C10_dedup_query_mismatch (fun _ _ => 0) "T"
      "see https://example.com/x now" "" 0).2.1 (by decide),
   (C10_dedup_query_mismatch (fun _ _ => 0) "T2"
      "with no links here" "" 0).2.2 (by decide)⟩

/-! ## Claim C1: batch fetch result count and order -/

theorem process_results_map_fst :
    ∀ (urls : List String) (results : List TaskOutcome),
      results.length = urls.length →
      (process_results urls results).map Prod.fst = urls := by
  intro urls
  induction urls with
  | nil => intro results _; simp [process_results]
  | cons u us ih =>
    intro results hlen
    cases results with
    | nil => simp at hlen
    | cons r rs =>
      simp only [List.length_cons] at hlen
      simp only [process_results, List.zipWith_cons_cons, List.map_cons, List.cons.injEq]
      exact ⟨by cases r <;> rfl, ih rs (by omega)⟩

/-- C1 counterexample: on a closed fetcher, extract_multiple_articles
returns the empty list for a one-element URL list, so the batch does not
contain one result per input URL as the claim states for every input. -/
theorem C1_counterexample :
    (extract_multiple_articles true ["https://a.example/1"]
        [TaskOutcome.ok "t" "c"] [true] false).out.length ≠
      ["https://a.example/1"].length := by decide

/-- C1 amended: provided the fetcher has not been closed, a batch fetch
returns exactly one result per input URL and the i-th result carries the
i-th input URL, regardless of per-task outcomes or the batch timeout (a
closed fetcher instead aborts with the empty list). -/
theorem C1_batch_order (urls : List String) (outcomes : List TaskOutcome)
    (done : List Bool) (timedOut : Bool)
    (hlen : outcomes.length = urls.length) :
    (extract_multiple_articles false urls outcomes done timedOut).out.map Prod.fst
      = urls := by
  unfold extract_multiple_articles
  simp only [if_neg (by simp : ¬ (false = true))]
  apply process_results_map_fst
  unfold gather_results
  split
  · simpa using hlen
  · exact hlen

/-- Witness for C1 at a concrete batch. -/
theorem C1_batch_order_witness :
    (extract_multiple_articles false ["u1", "u2"]
        [TaskOutcome.ok "t" "c", TaskOutcome.exn "boom"] [true, true] false).out.map
      Prod.fst = ["u1", "u2"] :=
  C1_batch_order ["u1", "u2"] [TaskOutcome.ok "t" "c", TaskOutcome.exn "boom"]
    [true, true] false (by decide)

/-! ## Claim C2: behaviour at the batch timeout -/

theorem process_results_all_timeout :
    ∀ (urls : List String) (outcomes : List TaskOutcome),
      outcomes.length = urls.length →
      process_results urls (outcomes.map (fun _ => TaskOutcome.exn "Timeout")) =
        urls.map (fun u => (u, "Error: Task failed", "")) := by
  intro urls
  induction urls with
  | nil => intro outcomes _; simp [process_results]
  | cons u us ih =>
    intro outcomes hlen
    cases outcomes with
    | nil => simp at hlen
    | cons r rs =>
      simp only [List.length_cons] at hlen
      simp only [List.map_cons, process_results, List.zipWith_cons_cons, List.cons.injEq]
      exact ⟨trivial, ih rs (by omega)⟩

theorem mem_cancelled_iff (done : List Bool) (i : Nat) :
    i ∈ cancelled_tasks true done ↔ done[i]? = some false := by
  unfold cancelled_tasks
  simp only [if_true, List.mem_filterMap]
  constructor
  · rintro ⟨⟨j, b⟩, hmem, hf⟩
    by_cases hb : b = false
    · subst hb
      simp only [if_true, Option.some.injEq] at hf
      subst hf
      have := List.mem_enum_iff_getElem?.mp hmem
      simpa using this
    · simp [hb] at hf
  · intro hget
    refine ⟨(i, false), ?_, by simp⟩
    exact List.mem_enum_iff_getElem?.mpr (by simpa using hget)

/-- C2 counterexample: in a batch of five URLs where the first four tasks
completed successfully and only the fifth is still pending when the batch
timeout fires, the result for the first URL is the timeout failure marker
and not its completed (title, content) — completed tasks do not keep their
successful results. -/
theorem C2_counterexample :
    (extract_multiple_articles false ["u1", "u2", "u3", "u4", "u5"]
        [TaskOutcome.ok "t1" "c1", TaskOutcome.ok "t2" "c2",
         TaskOutcome.ok "t3" "c3", TaskOutcome.ok "t4" "c4",
         TaskOutcome.exn "never completes"]
        [true, true, true, true, false] true).out[0]? =
      some ("u1", "Error: Task failed", "") ∧
    (extract_multiple_articles false ["u1", "u2", "u3", "u4", "u5"]
        [TaskOutcome.ok "t1" "c1", TaskOutcome.ok "t2" "c2",
         TaskOutcome.ok "t3" "c3", TaskOutcome.ok "t4" "c4",
         TaskOutcome.exn "never completes"]
        [true, true, true, true, false] true).out[0]? ≠
      some ("u1", "t1", "c1") := by decide

/-- C2 amended: when the batch timeout fires, only the tasks still pending
at the timeout are cancelled, but the returned list marks every URL of the
batch — including those whose task had already completed successfully —
as timeout-failed. -/
theorem C2_timeout_discards_all (urls : List String) (outcomes : List TaskOutcome)
    (done : List Bool) (hlen : outcomes.length = urls.length) :
    (extract_multiple_articles false urls outcomes done true).out =
      urls.map (fun u => (u, "Error: Task failed", "")) ∧
    ∀ i, i ∈ (extract_multiple_articles false urls outcomes done true).cancelled ↔
      done[i]? = some false := by
  constructor
  · unfold extract_multiple_articles
    simp only [if_neg (by simp : ¬ (false = true))]
    unfold gather_results
    simp only [if_true]
    exact process_results_all_timeout urls outcomes hlen
  · intro i
    unfold extract_multiple_articles
    simp only [if_neg (by simp : ¬ (false = true))]
    exact mem_cancelled_iff done i

/-- Witness for C2 at a concrete timed-out batch. -/
theorem C2_timeout_discards_all_witness :
    (extract_multiple_articles false ["a", "b"]
        [TaskOutcome.ok "x" "y", TaskOutcome.exn "m"] [true, false] true).out =
      [("a", "Error: Task failed", ""), ("b", "Error: Task failed", "")] ∧
    (1 ∈ (extract_multiple_articles false ["a", "b"]
        [TaskOutcome.ok "x" "y", TaskOutcome.exn "m"] [true, false] true).cancelled ↔
      [true, false][1]? = some false) :=
  ⟨(C2_timeout_discards_all ["a", "b"]
      [TaskOutcome.ok "x" "y", TaskOutcome.exn "m"] [true, false] (by decide)).1,
   (C2_timeout_discards_all ["a", "b"]
      [TaskOutcome.ok "x" "y", TaskOutcome.exn "m"] [true, false] (by decide)).2 1⟩

/-! ## Claim C8: the minimum-content threshold in the retry loop -/

theorem fetch_attempts_none_of_fail :
    ∀ (outcomes : List AttemptOutcome) (k : Nat),
      (∀ t c, AttemptOutcome.ret t c ∈ outcomes → c.length ≤ 100) →
      (fetch_attempts outcomes k).1 = none := by
  intro outcomes
  induction outcomes with
  | nil => intro k _; rfl
  | cons oc rest ih =>
    intro k hfail
    cases oc with
    | ret t c =>
      have hc : c.length ≤ 100 := hfail t c (by simp)
      simp only [fetch_attempts, if_neg (by omega : ¬ 100 < c.length)]
      exact ih (k + 1) (fun t' c' hm => hfail t' c' (List.mem_cons_of_mem _ hm))
    | exn m =>
      simp only [fetch_attempts]
      exact ih (k + 1) (fun t' c' hm => hfail t' c' (List.mem_cons_of_mem _ hm))

/-- C8 counterexample: a first attempt returning content of 101 characters
but a single word — far below the claimed 100-word minimum — is returned
as an immediate success with no retry and no backoff sleep, so the
threshold is not a word count. -/
theorem C8_counterexample :
    pyWordCount (String.mk (List.replicate 101 'a')) < 100 ∧
    extract_single_article false "https://example.com/a"
        [AttemptOutcome.ret "T" (String.mk (List.replicate 101 'a')),
         AttemptOutcome.exn "e1", AttemptOutcome.exn "e2"] =
      (("T", String.mk (List.replicate 101 'a')), []) := by decide

/-- C8 amended: extracted content of at most 100 CHARACTERS (not words) is
treated as an extraction failure: the attempt behaves exactly like an
attempt that raised, taking the same retry path with the 2^attempt-second
backoff, and only content longer than 100 characters is returned as a
success. -/
theorem C8_short_content_retries (t c m : String) (rest : List AttemptOutcome) (k : Nat) :
    (c.length ≤ 100 →
      fetch_attempts (AttemptOutcome.ret t c :: rest) k =
        fetch_attempts (AttemptOutcome.exn m :: rest) k) ∧
    (100 < c.length →
      fetch_attempts (AttemptOutcome.ret t c :: rest) k = (some (t, c), [])) ∧
    (c.length ≤ 100 → rest ≠ [] →
      (fetch_attempts (AttemptOutcome.ret t c :: rest) k).2 =
        2 ^ k :: (fetch_attempts rest (k + 1)).2) := by
  refine ⟨?_, ?_, ?_⟩
  · intro hle
    simp only [fetch_attempts, if_neg (by omega : ¬ 100 < c.length)]
  · intro hgt
    simp only [fetch_attempts, if_pos hgt]
  · intro hle hne
    simp only [fetch_attempts, if_neg (by omega : ¬ 100 < c.length)]
    simp [List.isEmpty_iff, hne]

/-- Witness for C8 at a concrete short attempt. -/
theorem C8_short_content_retries_witness :
    fetch_attempts [AttemptOutcome.ret "T" "short", AttemptOutcome.exn "x"] 0 =
      fetch_attempts [AttemptOutcome.exn "m", AttemptOutcome.exn "x"] 0 :=
  (C8_short_content_retries "T" "short" "m" [AttemptOutcome.exn "x"] 0).1 (by decide)

/-! ## Claim C9: fallback placeholder on exhausted retries -/

/-- C9 counterexample: a URL that is not a Google News redirect link (the
only redirect-host notion in the code) still receives the deterministic
domain-derived placeholder body after its retries are exhausted, so the
placeholder is not restricted to redirect-only hosts. -/
theorem C9_counterexample :
    is_google_news_redirect "https://example.com/a" = false ∧
    (extract_single_article false "https://example.com/a"
        [AttemptOutcome.exn "e1", AttemptOutcome.exn "e2", AttemptOutcome.exn "e3"]).1 =
      ("Error: Extraction failed",
        "Content from example.com could not be extracted. Source: https://example.com/a") ∧
    "Content from example.com could not be extracted. Source: https://example.com/a" ≠ "" := by
  decide

/-- C9 amended: extract_single_article never raises (it is a total
function of the attempt outcomes), and after exhausting retries it returns
a failed result whose content is the deterministic placeholder derived
from the URL's domain — for EVERY failed URL, not only redirect-only
hosts — so downstream stages never see an empty content string from the
retry-exhausted path. -/
theorem C9_fallback_for_all_failures (url : String) (outcomes : List AttemptOutcome)
    (hfail : ∀ t c, AttemptOutcome.ret t c ∈ outcomes → c.length ≤ 100) :
    (extract_single_article false url outcomes).1 =
      ("Error: Extraction failed", generate_fallback_content url) ∧
    (extract_single_article false url outcomes).1.2 ≠ "" := by
  have hnone := fetch_attempts_none_of_fail outcomes 0 hfail
  constructor
  · unfold extract_single_article
    simp only [if_neg (by simp : ¬ (false = true))]
    rw [hnone]
  · unfold extract_single_article
    simp only [if_neg (by simp : ¬ (false = true))]
    rw [hnone]
    simp only
    intro hempty
    have hlen : (generate_fallback_content url).length = 0 := by rw [hempty]; rfl
    unfold generate_fallback_content at hlen
    simp [String.length_append] at hlen
    exact absurd hlen.1.1.1 (by decide)

/-- Witness for C9 at a concrete URL whose single attempt returns short
content. -/
theorem C9_fallback_for_all_failures_witness :
    (extract_single_article false "https://other.example/b"
        [AttemptOutcome.ret "T" "tiny"]).1 =
      ("Error: Extraction failed", generate_fallback_content "https://other.example/b") ∧
    (extract_single_article false "https://other.example/b"
        [AttemptOutcome.ret "T" "tiny"]).1.2 ≠ "" :=
  C9_fallback_for_all_failures "https://other.example/b" [AttemptOutcome.ret "T" "tiny"]
    (by
      intro t c hm
      simp only [List.mem_singleton, AttemptOutcome.ret.injEq] at hm
      rcases hm with ⟨ht, hc⟩
      subst hc
      decide)

/-! ## Claim C4: find_similar_content scoring, filtering and ordering -/

/-- C4: find_similar_content returns exactly the stored fingerprints —
excluding exact content-hash matches — whose pairwise score is at or above
the configured threshold, sorted in descending order of score; and for
every pair with a positive maximum word count the pairwise score equals
the spec formula 0.5 * (similarity hashes equal) + 0.3 * title-sequence
similarity + 0.2 * (1 - |word-count difference| / max(word counts)). -/
theorem C4_find_similar_spec (seqRatio : String → String → ℚ) (st : DedupState)
    (title content : String) (n : Int) :
    (∀ ex s, (ex, s) ∈ find_similar_content seqRatio st title content n ↔
      (ex ∈ st.fingerprints ∧
       ex.content_hash ≠ (create_content_fingerprint title content "" n).content_hash ∧
       s = calculate_similarity seqRatio (create_content_fingerprint title content "" n) ex title ∧
       st.similarity_threshold ≤ s)) ∧
    List.Sorted (fun a b : ContentFingerprint × ℚ => b.2 ≤ a.2)
      (find_similar_content seqRatio st title content n) ∧
    (∀ ex : ContentFingerprint,
      0 < max ex.word_count (create_content_fingerprint title content "" n).word_count →
      calculate_similarity seqRatio (create_content_fingerprint title content "" n) ex title =
        claimed_similarity_score seqRatio (create_content_fingerprint title content "" n) ex title) := by
  refine ⟨?_, ?_, ?_⟩
  · intro ex s
    unfold find_similar_content
    rw [(List.perm_insertionSort _ _).mem_iff, List.mem_filterMap]
    constructor
    · rintro ⟨a, hmem, hf⟩
      by_cases hch : a.content_hash = (create_content_fingerprint title content "" n).content_hash
      · simp [hch] at hf
      · rw [if_neg hch] at hf
        by_cases hθ : st.similarity_threshold ≤
            calculate_similarity seqRatio (create_content_fingerprint title content "" n) a title
        · rw [if_pos hθ] at hf
          simp only [Option.some.injEq, Prod.mk.injEq] at hf
          rcases hf with ⟨ha, hs⟩
          subst ha
          exact ⟨hmem, hch, hs.symm, hs ▸ hθ⟩
        · rw [if_neg hθ] at hf
          exact absurd hf (by simp)
    · rintro ⟨hmem, hch, hs, hθ⟩
      refine ⟨ex, hmem, ?_⟩
      rw [if_neg hch, if_pos (hs ▸ hθ), ← hs]
  · unfold find_similar_content
    haveI htot : IsTotal (ContentFingerprint × ℚ) (fun a b => b.2 ≤ a.2) :=
      ⟨fun a b => le_total b.2 a.2⟩
    haveI htr : IsTrans (ContentFingerprint × ℚ) (fun a b => b.2 ≤ a.2) :=
      ⟨fun a b c h1 h2 => le_trans h2 h1⟩
    exact List.sorted_insertionSort _ _
  · intro ex hmax
    unfold calculate_similarity claimed_similarity_score length_similarity
      spec_length_similarity word_count_diff
    have habs : ((ex.word_count : ℤ) -
        ((create_content_fingerprint title content "" n).word_count : ℤ)).natAbs =
        max ex.word_count (create_content_fingerprint title content "" n).word_count -
          min ex.word_count (create_content_fingerprint title content "" n).word_count := by
      omega
    rw [habs, if_pos hmax]
    ring

/-- Witness for C4: the score formula at a concrete fingerprint pair with
positive maximum word count. -/
theorem C4_find_similar_spec_witness :
    calculate_similarity (fun _ _ => 0)
        (create_content_fingerprint "t" "alpha beta gamma words" "" 0)
        ⟨"h1", "h2", "h3", 3, 0, "Old Title", ""⟩ "t" =
      claimed_similarity_score (fun _ _ => 0)
        (create_content_fingerprint "t" "alpha beta gamma words" "" 0)
        ⟨"h1", "h2", "h3", 3, 0, "Old Title", ""⟩ "t" :=
  (C4_find_similar_spec (fun _ _ => 0) (DedupState.init (4 / 5)) "t"
      "alpha beta gamma words" 0).2.2
    ⟨"h1", "h2", "h3", 3, 0, "Old Title", ""⟩
    (lt_of_lt_of_le (by decide) (le_max_left 3 _))

/-! ## Claim C6: shutdown flag checks in the topic loop -/

theorem guarded_topic_loop (flags : Nat → Bool) :
    ∀ (topics : List (String × IterBehavior)) (k i : Nat) (stats : RunStats)
      (p : Option Ev),
      guardedFrom p (topic_loop flags k i stats topics).trace = true := by
  intro topics
  induction topics with
  | nil => intro k i stats p; rfl
  | cons pr rest ih =>
    intro k i stats p
    obtain ⟨topic, beh⟩ := pr
    by_cases hk : flags k = true
    · simp [topic_loop, hk, guardedFrom]
    · cases beh with
      | fatal m => simp [topic_loop, hk, guardedFrom]
      | runs oc =>
        by_cases hr : (process_topic stats topic oc).1 = true
        · by_cases hb : flags (k + 1) = true
          · simp [topic_loop, hk, hr, hb, guardedFrom, checkedClear, ih]
          · simp [topic_loop, hk, hr, hb, guardedFrom, checkedClear, ih]
        · simp [topic_loop, hk, hr, guardedFrom, checkedClear, ih]

theorem no_start_when_flag_set (flags : Nat → Bool)
    (topics : List (String × IterBehavior)) (k i : Nat) (stats : RunStats)
    (hk : flags k = true) (j : Nat) :
    Ev.started j ∉ (topic_loop flags k i stats topics).trace := by
  cases topics with
  | nil => simp [topic_loop]
  | cons pr rest =>
    obtain ⟨topic, beh⟩ := pr
    simp [topic_loop, hk]

theorem started_implies_finished (flags : Nat → Bool) :
    ∀ (topics : List (String × IterBehavior)) (k i : Nat) (stats : RunStats)
      (j : Nat),
      Ev.started j ∈ (topic_loop flags k i stats topics).trace →
      Ev.finished j ∈ (topic_loop flags k i stats topics).trace := by
  intro topics
  induction topics with
  | nil => intro k i stats j h; simp [topic_loop] at h
  | cons pr rest ih =>
    intro k i stats j h
    obtain ⟨topic, beh⟩ := pr
    by_cases hk : flags k = true
    · simp [topic_loop, hk] at h
    · cases beh with
      | fatal m => simp [topic_loop, hk] at h
      | runs oc =>
        by_cases hr : (process_topic stats topic oc).1 = true
        · by_cases hb : flags (k + 1) = true
          · simp only [topic_loop, hk, hr, hb] at h ⊢
            simp [List.mem_cons, List.mem_append] at h ⊢
            rcases h with h | h
            · exact Or.inl h
            · exact Or.inr (ih (k + 2) (i + 1) _ j h)
          · simp only [topic_loop, hk, hr, hb] at h ⊢
            simp [List.mem_cons, List.mem_append] at h ⊢
            rcases h with h | h
            · exact Or.inl h
            · exact Or.inr (ih (k + 2) (i + 1) _ j h)
        · simp only [topic_loop, hk, hr] at h ⊢
          simp [List.mem_cons] at h ⊢
          rcases h with h | h
          · exact Or.inl h
          · exact Or.inr (ih (k + 1) (i + 1) _ j h)

/-- C6: in every run of the topic loop, each topic start and each
inter-topic sleep is immediately preceded by a shutdown-flag read that
returned false; when the flag is already set at the next read the loop
exits at once, starting no topic; and every topic that is started runs to
its finish rather than being killed mid-stage (the flag is only consulted
between topics). -/
theorem C6_shutdown_no_new_topic (flags : Nat → Bool)
    (topics : List (String × IterBehavior)) (k i : Nat) (stats : RunStats) :
    guardedFrom none (topic_loop flags k i stats topics).trace = true ∧
    (flags k = true →
      ∀ j, Ev.started j ∉ (topic_loop flags k i stats topics).trace) ∧
    (∀ j, Ev.started j ∈ (topic_loop flags k i stats topics).trace →
      Ev.finished j ∈ (topic_loop flags k i stats topics).trace) :=
  ⟨guarded_topic_loop flags topics k i stats none,
   fun hk j => no_start_when_flag_set flags topics k i stats hk j,
   fun j h => started_implies_finished flags topics k i stats j h⟩

/-- Witness for C6: with the shutdown flag set, the loop starts no topic. -/
theorem C6_shutdown_no_new_topic_witness :
    Ev.started 0 ∉ (topic_loop (fun _ => true) 0 0 ⟨0, 0, 0, []⟩
      [("topic a", IterBehavior.runs TopicOutcome.published)]).trace :=
  (C6_shutdown_no_new_topic (fun _ => true)
    [("topic a", IterBehavior.runs TopicOutcome.published)] 0 0 ⟨0, 0, 0, []⟩).2.1 rfl 0

/-! ## Claim C7: per-topic failures are contained -/

theorem all_topics_started (flags : Nat → Bool) (hflags : ∀ n, flags n = false) :
    ∀ (topics : List (String × IterBehavior)) (k i : Nat) (stats : RunStats),
      (∀ p ∈ topics, ∃ oc, p.2 = IterBehavior.runs oc) →
      ∀ j, j < topics.length →
        Ev.started (i + j) ∈ (topic_loop flags k i stats topics).trace := by
  intro topics
  induction topics with
  | nil => intro k i stats _ j hj; simp at hj
  | cons pr rest ih =>
    intro k i stats hall j hj
    obtain ⟨topic, beh⟩ := pr
    obtain ⟨oc, hoc⟩ := hall (topic, beh) (by simp)
    simp only at hoc
    subst hoc
    have hk : ¬ flags k = true := by simp [hflags k]
    by_cases hr : (process_topic stats topic oc).1 = true
    · by_cases hb : flags (k + 1) = true
      · exact absurd hb (by simp [hflags])
      · cases j with
        | zero => simp [topic_loop, hk, hr, hb]
        | succ j' =>
          have harith : i + (j' + 1) = (i + 1) + j' := by omega
          rw [harith]
          simp [topic_loop, hk, hr, hb]
          right
          exact ih _ _ _ (fun p hp => hall p (List.mem_cons_of_mem _ hp)) j'
            (by simp at hj; omega)
    · cases j with
      | zero => simp [topic_loop, hk, hr]
      | succ j' =>
        have harith : i + (j' + 1) = (i + 1) + j' := by omega
        rw [harith]
        simp [topic_loop, hk, hr]
        right
        exact ih _ _ _ (fun p hp => hall p (List.mem_cons_of_mem _ hp)) j'
          (by simp at hj; omega)

/-- C7: an exception raised while processing a topic is caught inside
_process_topic, recorded in the run statistics error list, and does not
abort the run: with no shutdown request the loop still starts every topic
whatever the per-topic outcomes are; only an exception in the iteration
machinery itself (IterBehavior.fatal) ends the loop early, and it is
caught at the run boundary with the mandatory finally-cleanup still run. -/
theorem C7_topic_failure_contained :
    (∀ (stats : RunStats) (topic msg : String),
      process_topic stats topic (TopicOutcome.raised msg) =
        (false, { stats with
          errors := stats.errors ++ [(topic, msg)],
          failed_posts := stats.failed_posts + 1 })) ∧
    (∀ (flags : Nat → Bool) (topics : List (String × IterBehavior)) (k i : Nat)
       (stats : RunStats),
      (∀ n, flags n = false) →
      (∀ p ∈ topics, ∃ oc, p.2 = IterBehavior.runs oc) →
      ∀ j, j < topics.length →
        Ev.started (i + j) ∈ (topic_loop flags k i stats topics).trace) ∧
    (∀ (flags : Nat → Bool) (topic msg : String) (rest : List (String × IterBehavior))
       (k i : Nat) (stats : RunStats),
      flags k = false →
      topic_loop flags k i stats ((topic, IterBehavior.fatal msg) :: rest) =
        ⟨stats, [Ev.checked false], some msg⟩) ∧
    (∀ (flags : Nat → Bool) (stats : RunStats)
       (topics : List (String × IterBehavior)),
      flags 0 = false →
      (blog_generation_task flags stats topics).cleanupRan = true) := by
  refine ⟨fun stats topic msg => rfl, ?_, ?_, ?_⟩
  · intro flags topics k i stats hflags hall j hj
    exact all_topics_started flags hflags topics k i stats hall j hj
  · intro flags topic msg rest k i stats hk
    simp [topic_loop, hk]
  · intro flags stats topics h0
    cases hf : (topic_loop flags 1 0
        { stats with total_runs := stats.total_runs + 1 } topics).fault with
    | none => simp [blog_generation_task, h0, hf]
    | some m => simp [blog_generation_task, h0, hf]

/-- Witness for C7: a raising topic is still started, and a fatal loop
error still ends with cleanup run. -/
theorem C7_topic_failure_contained_witness :
    Ev.started 0 ∈ (topic_loop (fun _ => false) 1 0 ⟨1, 0, 0, []⟩
      [("t1", IterBehavior.runs (TopicOutcome.raised "boom")),
       ("t2", IterBehavior.runs TopicOutcome.published)]).trace ∧
    (blog_generation_task (fun _ => false) ⟨0, 0, 0, []⟩
      [("t1", IterBehavior.fatal "loop error")]).cleanupRan = true :=
  ⟨C7_topic_failure_contained.2.1 (fun _ => false)
      [("t1", IterBehavior.runs (TopicOutcome.raised "boom")),
       ("t2", IterBehavior.runs TopicOutcome.published)] 1 0 ⟨1, 0, 0, []⟩
      (fun _ => rfl)
      (by
        intro p hp
        simp only [List.mem_cons, List.not_mem_nil, or_false] at hp
        rcases hp with hp | hp
        · exact ⟨TopicOutcome.raised "boom", by rw [hp]⟩
        · exact ⟨TopicOutcome.published, by rw [hp]⟩)
      0 (by decide),
   C7_topic_failure_contained.2.2.2 (fun _ => false) ⟨0, 0, 0, []⟩
      [("t1", IterBehavior.fatal "loop error")] rfl⟩
